import Mathlib

/-
Verification of the relf ELF-header dumper (src/main.rs) against its
natural-language specification.

The program reads at most 64 bytes (sizeof Elf64_Ehdr) from a file,
checks the 4-byte ELF magic, reinterprets the buffer as the fixed
64-bit ELF header record via unchecked memory casts, and prints a
readelf-style report.

Embedding notes, justified line-by-line from the source:
  - A file is a list of bytes (Fin 256, the Rust u8 domain).
  - Multi-byte fields are read in host byte order; the host is taken to
    be little-endian, the documented assumption of the source.
  - The unchecked enum transmutes are modelled as Option-valued decoders:
    a byte that is not a declared discriminant of the target Rust enum
    makes the transmute undefined behavior, modelled as none /
    WorkResult.undefinedBehavior.  The 2-byte type field is kept as a raw
    u16 value because its Display impl is total over u16 (it has a
    catch-all arm and a numeric range guard) and the source transmutes an
    arbitrary u16 into it in _static_asserts.
  - Reads past the end of the buffer (the source does no length check;
    the Vec has capacity 64 but possibly fewer initialized bytes) are
    undefined behavior, modelled as WorkResult.undefinedBehavior.
  - panic! is modelled as WorkResult.panicked with the panic message.
-/

set_option maxRecDepth 16384

namespace Relf

/-- A byte of the input file, the Rust u8 domain. -/
abbrev Byte := Fin 256

/-- The apostrophe character as a one-character string, used in the
display text of the little/big endian data encodings. -/
def apos : String := String.mk [Char.ofNat 39]

/-- Rust hash-x formatting of an unsigned integer: lowercase hexadecimal
digits preceded by 0x, no padding; 0 renders as 0x0. -/
def hexFmt (n : Nat) : String := "0x" ++ String.mk (Nat.toDigits 16 n)

/-- Rust 02x formatting of a byte: two lowercase hexadecimal digits. -/
def hex2 (n : Nat) : String :=
  (if n < 16 then "0" else "") ++ String.mk (Nat.toDigits 16 n)

/-- ElfEiClass from src/main.rs lines 26-30: repr(u8) enum with implicit
discriminants 0, 1, 2. -/
inductive ElfEiClass
  | ELFCLASSNONE
  | ELFCLASS32
  | ELFCLASS64
deriving DecidableEq

/-- Display impl for ElfEiClass (src/main.rs lines 32-42). -/
def ElfEiClass.str : ElfEiClass → String
  | .ELFCLASSNONE => "None"
  | .ELFCLASS32 => "ELF32"
  | .ELFCLASS64 => "ELF64"

/-- The transmute of a byte into ElfEiClass: defined only on the declared
discriminants 0, 1, 2; any other byte is undefined behavior (none). -/
def elfEiClassOfByte (b : Byte) : Option ElfEiClass :=
  match b.val with
  | 0 => some .ELFCLASSNONE
  | 1 => some .ELFCLASS32
  | 2 => some .ELFCLASS64
  | _ => none

/-- ElfEiData from src/main.rs lines 44-51: repr(u8) enum with implicit
discriminants 0, 1, 2. -/
inductive ElfEiData
  | ELFDATANONE
  | ELFDATA2LSB
  | ELFDATA2MSB
deriving DecidableEq

/-- Display impl for ElfEiData (src/main.rs lines 53-63). -/
def ElfEiData.str : ElfEiData → String
  | .ELFDATANONE => "None"
  | .ELFDATA2LSB => "2" ++ apos ++ "s complement, little endian"
  | .ELFDATA2MSB => "2" ++ apos ++ "s complement, big endian"

/-- The transmute of a byte into ElfEiData: defined only on discriminants
0, 1, 2. -/
def elfEiDataOfByte (b : Byte) : Option ElfEiData :=
  match b.val with
  | 0 => some .ELFDATANONE
  | 1 => some .ELFDATA2LSB
  | 2 => some .ELFDATA2MSB
  | _ => none

/-- ElfEiVersion from src/main.rs lines 65-71: repr(u8) enum with implicit
discriminants 0, 1. -/
inductive ElfEiVersion
  | EV_NONE
  | EV_CURRENT
deriving DecidableEq

/-- Display impl for ElfEiVersion (src/main.rs lines 73-82). -/
def ElfEiVersion.str : ElfEiVersion → String
  | .EV_NONE => "None"
  | .EV_CURRENT => "1 (current)"

/-- The transmute of a byte into ElfEiVersion: defined only on
discriminants 0, 1. -/
def elfEiVersionOfByte (b : Byte) : Option ElfEiVersion :=
  match b.val with
  | 0 => some .EV_NONE
  | 1 => some .EV_CURRENT
  | _ => none

/-- ElfEiOsAbi from src/main.rs lines 84-102: repr(u8) enum with exactly
fourteen declared discriminants. -/
inductive ElfEiOsAbi
  | ELFOSABI_NONE
  | ELFOSABI_HPUX
  | ELFOSABI_NETBSD
  | ELFOSABI_GNU
  | ELFOSABI_SOLARIS
  | ELFOSABI_AIX
  | ELFOSABI_IRIX
  | ELFOSABI_FREEBSD
  | ELFOSABI_TRU64
  | ELFOSABI_MODESTO
  | ELFOSABI_OPENBSD
  | ELFOSABI_ARM_AEABI
  | ELFOSABI_ARM
  | ELFOSABI_STANDALONE
deriving DecidableEq

/-- Display impl for ElfEiOsAbi (src/main.rs lines 109-130). -/
def ElfEiOsAbi.str : ElfEiOsAbi → String
  | .ELFOSABI_NONE => "UNIX - System V"
  | .ELFOSABI_HPUX => "HP-UX"
  | .ELFOSABI_NETBSD => "NetBSD"
  | .ELFOSABI_GNU => "GNU ELF"
  | .ELFOSABI_SOLARIS => "Sun Solaris"
  | .ELFOSABI_AIX => "IBM AIX"
  | .ELFOSABI_IRIX => "SGI Irix"
  | .ELFOSABI_FREEBSD => "FreeBSD"
  | .ELFOSABI_TRU64 => "Compaq TRU64 UNIX"
  | .ELFOSABI_MODESTO => "Novell Modesto"
  | .ELFOSABI_OPENBSD => "OpenBSD"
  | .ELFOSABI_ARM_AEABI => "ARM EABI"
  | .ELFOSABI_ARM => "ARM"
  | .ELFOSABI_STANDALONE => "Standalone (embedded) application"

/-- The transmute of a byte into ElfEiOsAbi: defined only on the fourteen
declared discriminants 0,1,2,3,6,7,8,9,10,11,12,64,97,255; every other
byte value is undefined behavior (none) - the enum has no fallback
variant. -/
def elfEiOsAbiOfByte (b : Byte) : Option ElfEiOsAbi :=
  match b.val with
  | 0 => some .ELFOSABI_NONE
  | 1 => some .ELFOSABI_HPUX
  | 2 => some .ELFOSABI_NETBSD
  | 3 => some .ELFOSABI_GNU
  | 6 => some .ELFOSABI_SOLARIS
  | 7 => some .ELFOSABI_AIX
  | 8 => some .ELFOSABI_IRIX
  | 9 => some .ELFOSABI_FREEBSD
  | 10 => some .ELFOSABI_TRU64
  | 11 => some .ELFOSABI_MODESTO
  | 12 => some .ELFOSABI_OPENBSD
  | 64 => some .ELFOSABI_ARM_AEABI
  | 97 => some .ELFOSABI_ARM
  | 255 => some .ELFOSABI_STANDALONE
  | _ => none

/-- Display impl for ElfEhdrType (src/main.rs lines 183-197), expressed on
the raw u16 discriminant.  The repr(u16) enum derives PartialOrd/Ord, so
the guard comparing against ET_LOPROC = 0xff00 and ET_HIPROC = 0xffff is a
numeric comparison of the underlying 2-byte value, and the final match arm
is a catch-all. -/
def elfEhdrTypeStr (v : Nat) : String :=
  if v = 0 then "NONE (No file type)"
  else if v = 1 then "REL (Relocatable file)"
  else if v = 2 then "EXEC (Executable file)"
  else if v = 3 then "DYN (Shared object file)"
  else if v = 4 then "CORE (Core file)"
  else if 0xff00 ≤ v ∧ v ≤ 0xffff then "Processor-specific"
  else "Unknown file type"

/-- Byte i of a buffer (0 when out of range; reads used by the model are
guarded so that an out-of-range read is classified as undefined behavior
before this default could be observed). -/
def byteAt (b : List Byte) (i : Nat) : Byte := b.getD i 0

/-- Little-endian read of w bytes starting at offset off, as done by the
struct reinterpretation on a little-endian host. -/
def readLE (b : List Byte) (off : Nat) : Nat → Nat
  | 0 => 0
  | w + 1 => (byteAt b off).val + 256 * readLE b (off + 1) w

/-- ElfIdentNamed from src/main.rs lines 147-157: the named view of the
16-byte identification block that the Display impl transmutes e_ident
into. -/
structure ElfIdentNamed where
  ei_magic : List Byte
  ei_class : ElfEiClass
  ei_data : ElfEiData
  ei_version : ElfEiVersion
  ei_osabi : ElfEiOsAbi
  ei_osabiversion : Byte
  padding2 : List Byte
deriving DecidableEq

/-- The transmute of the identification bytes into ElfIdentNamed
(src/main.rs lines 220-222): bytes 0-3 magic, 4 class, 5 data, 6 version,
7 OS/ABI, 8 ABI version, 9-15 padding.  none models the undefined
behavior of casting a byte that is not a declared discriminant of one of
the four repr(u8) enums. -/
def decodeIdentNamed (b : List Byte) : Option ElfIdentNamed :=
  match elfEiClassOfByte (byteAt b 4), elfEiDataOfByte (byteAt b 5),
        elfEiVersionOfByte (byteAt b 6), elfEiOsAbiOfByte (byteAt b 7) with
  | some c, some d, some v, some o =>
      some
        { ei_magic := [byteAt b 0, byteAt b 1, byteAt b 2, byteAt b 3]
          ei_class := c
          ei_data := d
          ei_version := v
          ei_osabi := o
          ei_osabiversion := byteAt b 8
          padding2 := [byteAt b 9, byteAt b 10, byteAt b 11, byteAt b 12,
                       byteAt b 13, byteAt b 14, byteAt b 15] }
  | _, _, _, _ => none

/-- Elf64_Ehdr from src/main.rs lines 199-216.  e_ident holds the raw 16
identification bytes; e_type is kept as the raw u16 discriminant of the
repr(u16) ElfEhdrType (see elfEhdrTypeStr); the remaining fields are the
raw unsigned integers of their declared widths. -/
structure Elf64_Ehdr where
  e_ident : List Byte
  e_type : Nat
  e_machine : Nat
  e_version : Nat
  e_entry : Nat
  e_phoff : Nat
  e_shoff : Nat
  e_flags : Nat
  e_ehsize : Nat
  e_phentsize : Nat
  e_phnum : Nat
  e_shentsize : Nat
  e_shnum : Nat
  e_shstrndx : Nat
deriving DecidableEq

/-- The struct reinterpretation of the 64-byte buffer as Elf64_Ehdr
(src/main.rs lines 284-287), field offsets per the C layout:
ident 0-15, type 16, machine 18, version 20, entry 24, phoff 32,
shoff 40, flags 48, ehsize 52, phentsize 54, phnum 56, shentsize 58,
shnum 60, shstrndx 62. -/
def decodeRaw (b : List Byte) : Elf64_Ehdr :=
  { e_ident := b.take 16
    e_type := readLE b 16 2
    e_machine := readLE b 18 2
    e_version := readLE b 20 4
    e_entry := readLE b 24 8
    e_phoff := readLE b 32 8
    e_shoff := readLE b 40 8
    e_flags := readLE b 48 4
    e_ehsize := readLE b 52 2
    e_phentsize := readLE b 54 2
    e_phnum := readLE b 56 2
    e_shentsize := readLE b 58 2
    e_shnum := readLE b 60 2
    e_shstrndx := readLE b 62 2 }

/-- Display impl for ElfIdent (src/main.rs lines 159-168): every one of
the 16 identification bytes as two lowercase hex digits followed by a
space (trailing space included). -/
def identStr (bs : List Byte) : String :=
  String.join (bs.map fun x => hex2 x.val ++ " ")

/-- Report line for the class field. -/
def lnClass (idn : ElfIdentNamed) : String :=
  "  Class:                             " ++ idn.ei_class.str ++ "\n"

/-- Report line for the data-encoding field. -/
def lnData (idn : ElfIdentNamed) : String :=
  "  Data:                              " ++ idn.ei_data.str ++ "\n"

/-- Report line for the ident-version field. -/
def lnIVersion (idn : ElfIdentNamed) : String :=
  "  Version:                           " ++ idn.ei_version.str ++ "\n"

/-- Report line for the OS/ABI field. -/
def lnOsAbi (idn : ElfIdentNamed) : String :=
  "  OS/ABI:                            " ++ idn.ei_osabi.str ++ "\n"

/-- Report line for the ABI-version field (decimal). -/
def lnAbiVer (idn : ElfIdentNamed) : String :=
  "  ABI Version:                       " ++ Nat.repr idn.ei_osabiversion.val ++ "\n"

/-- Report line for the type field. -/
def lnType (h : Elf64_Ehdr) : String :=
  "  Type:                              " ++ elfEhdrTypeStr h.e_type ++ "\n"

/-- Report line for the machine field (Debug format of a u16: decimal). -/
def lnMachine (h : Elf64_Ehdr) : String :=
  "  Machine:                           " ++ Nat.repr h.e_machine ++ "\n"

/-- Report line for the 4-byte version field (hash-x: hex, 0x prefix). -/
def lnVersion (h : Elf64_Ehdr) : String :=
  "  Version:                           " ++ hexFmt h.e_version ++ "\n"

/-- Report line for the entry point (hash-x: hex, 0x prefix). -/
def lnEntry (h : Elf64_Ehdr) : String :=
  "  Entry point address:               " ++ hexFmt h.e_entry ++ "\n"

/-- Report line for the program header table offset (decimal). -/
def lnPhoff (h : Elf64_Ehdr) : String :=
  "  Start of program headers:          " ++ Nat.repr h.e_phoff ++ " (bytes into file)\n"

/-- Report line for the section header table offset (decimal). -/
def lnShoff (h : Elf64_Ehdr) : String :=
  "  Start of section headers:          " ++ Nat.repr h.e_shoff ++ " (bytes into file)\n"

/-- Report line for the flags field (hash-x: hex, 0x prefix). -/
def lnFlags (h : Elf64_Ehdr) : String :=
  "  Flags:                             " ++ hexFmt h.e_flags ++ "\n"

/-- Report line for the header size (decimal). -/
def lnEhsize (h : Elf64_Ehdr) : String :=
  "  Size of this header:               " ++ Nat.repr h.e_ehsize ++ " (bytes)\n"

/-- Report line for the program header entry size (decimal). -/
def lnPhentsize (h : Elf64_Ehdr) : String :=
  "  Size of program headers:           " ++ Nat.repr h.e_phentsize ++ " (bytes)\n"

/-- Report line for the program header count (decimal). -/
def lnPhnum (h : Elf64_Ehdr) : String :=
  "  Number of program headers:         " ++ Nat.repr h.e_phnum ++ "\n"

/-- Report line for the section header entry size (decimal). -/
def lnShentsize (h : Elf64_Ehdr) : String :=
  "  Size of section headers:           " ++ Nat.repr h.e_shentsize ++ " (bytes)\n"

/-- Report line for the section header count (decimal). -/
def lnShnum (h : Elf64_Ehdr) : String :=
  "  Number of section headers:         " ++ Nat.repr h.e_shnum ++ "\n"

/-- Final report line, the string-table index (decimal, no newline: the
trailing newline comes from println). -/
def lnShstrndx (h : Elf64_Ehdr) : String :=
  "  Section header string table index: " ++ Nat.repr h.e_shstrndx

/-- All report lines after the title and Magic lines; none of them reads
e_ident or padding2. -/
def renderRest (h : Elf64_Ehdr) (idn : ElfIdentNamed) : String :=
  lnClass idn ++ lnData idn ++ lnIVersion idn ++ lnOsAbi idn ++ lnAbiVer idn ++
  lnType h ++ lnMachine h ++ lnVersion h ++ lnEntry h ++ lnPhoff h ++ lnShoff h ++
  lnFlags h ++ lnEhsize h ++ lnPhentsize h ++ lnPhnum h ++ lnShentsize h ++
  lnShnum h ++ lnShstrndx h

/-- Display impl for Elf64_Ehdr (src/main.rs lines 218-268): the title
line, the Magic line showing all 16 raw identification bytes, then one
line per field in on-disk order. -/
def renderEhdr (h : Elf64_Ehdr) (idn : ElfIdentNamed) : String :=
  "ELF Header:\n" ++ ("  Magic:   " ++ identStr h.e_ident ++ "\n") ++ renderRest h idn

/-- Outcome of one run of work (src/main.rs lines 270-290) on a given
file content.  output s: the report s was printed and the process exits
successfully.  panicked msg: a Rust panic with the given message -
uncontrolled termination, not a returned value.  undefinedBehavior: the
run performed a read past the initialized bytes of the buffer or an
enum transmute from a non-discriminant value. -/
inductive WorkResult
  | output (s : String)
  | panicked (msg : String)
  | undefinedBehavior
deriving DecidableEq

/-- The expected 4-byte ELF magic (src/main.rs line 275). -/
def properMagic : List Byte := [0x7f, 0x45, 0x4c, 0x46]

/-- The body of work on the buffer b actually read from the file
(src/main.rs lines 275-289).  The source performs no length check: the
4-byte magic read needs at least 4 initialized bytes and the full struct
reinterpretation needs all 64, otherwise the run is undefined behavior.
On magic mismatch it panics with message Not an ELF file.  Otherwise it
prints the rendered header followed by a newline (println). -/
def workB (b : List Byte) : WorkResult :=
  if b.length < 4 then .undefinedBehavior
  else if [byteAt b 0, byteAt b 1, byteAt b 2, byteAt b 3] ≠ properMagic then
    .panicked "Not an ELF file"
  else if b.length < 64 then .undefinedBehavior
  else
    match decodeIdentNamed b with
    | none => .undefinedBehavior
    | some idn => .output (renderEhdr (decodeRaw b) idn ++ "\n")

/-- work (src/main.rs lines 270-290): read at most 64 bytes
(sizeof Elf64_Ehdr) from the file, then run the parse-and-print body on
that buffer. -/
def work (file : List Byte) : WorkResult := workB (file.take 64)

/-- Boolean check that pat is a leading prefix of l. -/
def isPrefB : List Char → List Char → Bool
  | [], _ => true
  | _ :: _, [] => false
  | a :: as, b :: bs => a == b && isPrefB as bs

/-- Boolean check that pat occurs contiguously somewhere in l. -/
def isSubB (pat : List Char) : List Char → Bool
  | [] => isPrefB pat []
  | b :: bs => isPrefB pat (b :: bs) || isSubB pat bs

/-- pat occurs contiguously in hay (substring containment on the
underlying character lists). -/
def strHasSub (hay pat : String) : Bool := isSubB pat.data hay.data

/-- 64-byte buffer from the spec round-trip property: magic, class 2
(ELF64), data 1 (little endian), ident version 1, OS/ABI 0, ABI
version 0, zero padding, type field 2 (EXEC), every remaining field 0. -/
def c5buf : List Byte :=
  [0x7f, 0x45, 0x4c, 0x46, 2, 1, 1, 0, 0, 0, 0, 0, 0, 0, 0, 0, 2, 0] ++
  List.replicate 46 0

/-- Like c5buf but with byte 32 equal to 0x40: the program header table
offset field holds 64. -/
def c6buf : List Byte :=
  [0x7f, 0x45, 0x4c, 0x46, 2, 1, 1, 0, 0, 0, 0, 0, 0, 0, 0, 0, 2, 0] ++
  List.replicate 14 0 ++ [0x40] ++ List.replicate 31 0

/-- First 64 bytes of a small statically linked 64-bit ELF executable:
type EXEC, machine 62 (x86-64), version 1, entry 0x401000, program
header table at offset 64, section header table at offset 344, header
size 64, two program headers of 56 bytes, three section headers of 64
bytes, string table index 2. -/
def c7file : List Byte :=
  [0x7f, 0x45, 0x4c, 0x46, 2, 1, 1, 0, 0, 0, 0, 0, 0, 0, 0, 0,
   2, 0, 0x3e, 0, 1, 0, 0, 0, 0, 0x10, 0x40, 0, 0, 0, 0, 0,
   0x40, 0, 0, 0, 0, 0, 0, 0, 0x58, 1, 0, 0, 0, 0, 0, 0,
   0, 0, 0, 0, 0x40, 0, 0x38, 0, 2, 0, 0x40, 0, 3, 0, 2, 0]

/-- A 64-byte file of zeros: long enough for the full decode, but the
magic does not match. -/
def c8buf : List Byte := List.replicate 64 0

/-- Valid 64-byte header buffer (type 3, DYN) with all-zero padding. -/
def c9bufA : List Byte :=
  [0x7f, 0x45, 0x4c, 0x46, 2, 1, 1, 0, 0, 0, 0, 0, 0, 0, 0, 0, 3, 0] ++
  List.replicate 46 0

/-- Identical to c9bufA except byte 9 - the first padding byte - is 0xaa. -/
def c9bufB : List Byte :=
  [0x7f, 0x45, 0x4c, 0x46, 2, 1, 1, 0, 0, 0xaa, 0, 0, 0, 0, 0, 0, 3, 0] ++
  List.replicate 46 0

/-- The named identification view decoded from c9bufA. -/
def c9idnA : ElfIdentNamed :=
  { ei_magic := [0x7f, 0x45, 0x4c, 0x46], ei_class := .ELFCLASS64,
    ei_data := .ELFDATA2LSB, ei_version := .EV_CURRENT, ei_osabi := .ELFOSABI_NONE,
    ei_osabiversion := 0, padding2 := [0, 0, 0, 0, 0, 0, 0] }

/-- The named identification view decoded from c9bufB: only the padding
bytes differ from c9idnA. -/
def c9idnB : ElfIdentNamed :=
  { ei_magic := [0x7f, 0x45, 0x4c, 0x46], ei_class := .ELFCLASS64,
    ei_data := .ELFDATA2LSB, ei_version := .EV_CURRENT, ei_osabi := .ELFOSABI_NONE,
    ei_osabiversion := 0, padding2 := [0xaa, 0, 0, 0, 0, 0, 0] }

/-- A 65-byte file: 64 zeros then one extra byte equal to 1. -/
def c10f1 : List Byte := List.replicate 64 0 ++ [1]

/-- A 65-byte file agreeing with c10f1 on the first 64 bytes but with a
different byte beyond offset 63. -/
def c10f2 : List Byte := List.replicate 64 0 ++ [2]


/-- The report that work prints for c5buf, written out in full. -/
def c5out : String :=
  "ELF Header:\n  Magic:   7f 45 4c 46 02 01 01 00 00 00 00 00 00 00 00 00 \n  Class:                             ELF64\n  Data:                              2" ++ apos ++
  "s complement, little endian\n  Version:                           1 (current)\n  OS/ABI:                            UNIX - System V\n  ABI Version:                       0\n  Type:                              EXEC (Executable file)\n  Machine:                           0\n  Version:                           0x0\n  Entry point address:               0x0\n  Start of program headers:          0 (bytes into file)\n  Start of section headers:          0 (bytes into file)\n  Flags:                             0x0\n  Size of this header:               0 (bytes)\n  Size of program headers:           0 (bytes)\n  Number of program headers:         0\n  Size of section headers:           0 (bytes)\n  Number of section headers:         0\n  Section header string table index: 0\n"

/-- The report that work prints for c6buf, written out in full. -/
def c6out : String :=
  "ELF Header:\n  Magic:   7f 45 4c 46 02 01 01 00 00 00 00 00 00 00 00 00 \n  Class:                             ELF64\n  Data:                              2" ++ apos ++
  "s complement, little endian\n  Version:                           1 (current)\n  OS/ABI:                            UNIX - System V\n  ABI Version:                       0\n  Type:                              EXEC (Executable file)\n  Machine:                           0\n  Version:                           0x0\n  Entry point address:               0x0\n  Start of program headers:          64 (bytes into file)\n  Start of section headers:          0 (bytes into file)\n  Flags:                             0x0\n  Size of this header:               0 (bytes)\n  Size of program headers:           0 (bytes)\n  Number of program headers:         0\n  Size of section headers:           0 (bytes)\n  Number of section headers:         0\n  Section header string table index: 0\n"

/-- The report that work prints for c7file, written out in full. -/
def c7out : String :=
  "ELF Header:\n  Magic:   7f 45 4c 46 02 01 01 00 00 00 00 00 00 00 00 00 \n  Class:                             ELF64\n  Data:                              2" ++ apos ++
  "s complement, little endian\n  Version:                           1 (current)\n  OS/ABI:                            UNIX - System V\n  ABI Version:                       0\n  Type:                              EXEC (Executable file)\n  Machine:                           62\n  Version:                           0x1\n  Entry point address:               0x401000\n  Start of program headers:          64 (bytes into file)\n  Start of section headers:          344 (bytes into file)\n  Flags:                             0x0\n  Size of this header:               64 (bytes)\n  Size of program headers:           56 (bytes)\n  Number of program headers:         2\n  Size of section headers:           64 (bytes)\n  Number of section headers:         3\n  Section header string table index: 2\n"

/-- The report that work prints for c9bufA, written out in full. -/
def c9outA : String :=
  "ELF Header:\n  Magic:   7f 45 4c 46 02 01 01 00 00 00 00 00 00 00 00 00 \n  Class:                             ELF64\n  Data:                              2" ++ apos ++
  "s complement, little endian\n  Version:                           1 (current)\n  OS/ABI:                            UNIX - System V\n  ABI Version:                       0\n  Type:                              DYN (Shared object file)\n  Machine:                           0\n  Version:                           0x0\n  Entry point address:               0x0\n  Start of program headers:          0 (bytes into file)\n  Start of section headers:          0 (bytes into file)\n  Flags:                             0x0\n  Size of this header:               0 (bytes)\n  Size of program headers:           0 (bytes)\n  Number of program headers:         0\n  Size of section headers:           0 (bytes)\n  Number of section headers:         0\n  Section header string table index: 0\n"

/-- The report that work prints for c9bufB: it differs from c9outA in
the Magic line (aa instead of 00 for byte 9). -/
def c9outB : String :=
  "ELF Header:\n  Magic:   7f 45 4c 46 02 01 01 00 00 aa 00 00 00 00 00 00 \n  Class:                             ELF64\n  Data:                              2" ++ apos ++
  "s complement, little endian\n  Version:                           1 (current)\n  OS/ABI:                            UNIX - System V\n  ABI Version:                       0\n  Type:                              DYN (Shared object file)\n  Machine:                           0\n  Version:                           0x0\n  Entry point address:               0x0\n  Start of program headers:          0 (bytes into file)\n  Start of section headers:          0 (bytes into file)\n  Flags:                             0x0\n  Size of this header:               0 (bytes)\n  Size of program headers:           0 (bytes)\n  Number of program headers:         0\n  Size of section headers:           0 (bytes)\n  Number of section headers:         0\n  Section header string table index: 0\n"

/-- A pattern is a prefix of itself followed by anything. -/
theorem isPrefB_self_app (p r : List Char) : isPrefB p (p ++ r) = true := by
  induction p with
  | nil => rfl
  | cons a as ih => simp [isPrefB, ih]

/-- Extending the scanned list to the right preserves a prefix match. -/
theorem isPrefB_app (p : List Char) : ∀ l u, isPrefB p l = true → isPrefB p (l ++ u) = true := by
  induction p with
  | nil => intro l u _; rfl
  | cons a as ih =>
      intro l u hp
      cases l with
      | nil => simp [isPrefB] at hp
      | cons b bs =>
          simp only [isPrefB, Bool.and_eq_true] at hp ⊢
          exact ⟨hp.1, ih bs u hp.2⟩

/-- A prefix match is in particular a substring match. -/
theorem isSubB_of_pref (p l : List Char) (h : isPrefB p l = true) : isSubB p l = true := by
  cases l with
  | nil => simpa [isSubB] using h
  | cons b bs => simp [isSubB, h]

/-- A substring match survives one extra leading character. -/
theorem isSubB_cons (p : List Char) (b : Char) (bs : List Char) (h : isSubB p bs = true) :
    isSubB p (b :: bs) = true := by simp [isSubB, h]

/-- A substring match survives prepending any list. -/
theorem isSubB_app_left (p s l : List Char) (h : isSubB p l = true) :
    isSubB p (s ++ l) = true := by
  induction s with
  | nil => simpa using h
  | cons b bs ih => simpa [List.cons_append] using isSubB_cons p b (bs ++ l) ih

/-- A substring match survives appending any list. -/
theorem isSubB_app_right (p : List Char) : ∀ l u, isSubB p l = true → isSubB p (l ++ u) = true := by
  intro l
  induction l with
  | nil =>
      intro u h
      cases p with
      | nil =>
          cases u with
          | nil => exact h
          | cons c cs => exact isSubB_of_pref _ _ rfl
      | cons a as => simp [isSubB, isPrefB] at h
  | cons b bs ih =>
      intro u h
      simp only [isSubB, Bool.or_eq_true] at h
      rcases h with hp | hs
      · exact isSubB_of_pref _ _ (by simpa [List.cons_append] using isPrefB_app p (b :: bs) u hp)
      · simpa [List.cons_append] using isSubB_cons p b (bs ++ u) (ih u hs)

/-- Every string contains itself. -/
theorem strHasSub_self (s : String) : strHasSub s s = true := by
  unfold strHasSub
  have h := isPrefB_self_app s.data []
  rw [List.append_nil] at h
  exact isSubB_of_pref _ _ h

/-- Containment in the right part of an append. -/
theorem strHasSub_left (s t p : String) (h : strHasSub t p = true) :
    strHasSub (s ++ t) p = true :=
  isSubB_app_left p.data s.data t.data h

/-- Containment in the left part of an append. -/
theorem strHasSub_right (s t p : String) (h : strHasSub s p = true) :
    strHasSub (s ++ t) p = true :=
  isSubB_app_right p.data s.data t.data h

/-- Taking the first 64 bytes does not change reads below offset 64. -/
theorem byteAt_take (l : List Byte) (i : Nat) (h : i < 64) :
    byteAt (l.take 64) i = byteAt l i := by
  simp [byteAt, List.getD, List.getElem?_take, h]

/-- Multi-byte reads wholly below offset 64 see through the take. -/
theorem readLE_take (l : List Byte) : ∀ w off, off + w ≤ 64 →
    readLE (l.take 64) off w = readLE l off w := by
  intro w
  induction w with
  | zero => intro off _; rfl
  | succ n ih =>
      intro off h
      simp only [readLE]
      rw [byteAt_take l off (by omega), ih (off + 1) (by omega)]

/-- Two buffers agreeing byte-for-byte on a range give the same
little-endian read over that range. -/
theorem readLE_congr (b1 b2 : List Byte) : ∀ w off,
    (∀ i, off ≤ i → i < off + w → byteAt b1 i = byteAt b2 i) →
    readLE b1 off w = readLE b2 off w := by
  intro w
  induction w with
  | zero => intro off _; rfl
  | succ n ih =>
      intro off h
      simp only [readLE]
      rw [h off (Nat.le_refl off) (by omega), ih (off + 1) (fun i h1 h2 => h i (by omega) (by omega))]

/-- Inversion of a successful run of work: the file had at least 64
bytes, the identification block decoded, and the printed string is the
rendered header plus the println newline. -/
theorem work_output (file : List Byte) (s : String) (h : work file = .output s) :
    64 ≤ file.length ∧ ∃ idn, decodeIdentNamed (file.take 64) = some idn ∧
      s = renderEhdr (decodeRaw (file.take 64)) idn ++ "\n" := by
  unfold work workB at h
  by_cases h1 : (file.take 64).length < 4
  · rw [if_pos h1] at h; cases h
  rw [if_neg h1] at h
  by_cases h2 : [byteAt (file.take 64) 0, byteAt (file.take 64) 1,
      byteAt (file.take 64) 2, byteAt (file.take 64) 3] ≠ properMagic
  · rw [if_pos h2] at h; cases h
  rw [if_neg h2] at h
  by_cases h3 : (file.take 64).length < 64
  · rw [if_pos h3] at h; cases h
  rw [if_neg h3] at h
  refine ⟨by simp only [List.length_take] at h3; omega, ?_⟩
  cases hd : decodeIdentNamed (file.take 64) with
  | none => rw [hd] at h; cases h
  | some idn =>
      rw [hd] at h
      injection h with hs
      exact ⟨idn, rfl, hs.symm⟩

/-- The only panic work can raise carries the message of the magic
check, Not an ELF file. -/
theorem work_panicked (file : List Byte) (m : String) (h : work file = .panicked m) :
    m = "Not an ELF file" := by
  unfold work workB at h
  by_cases h1 : (file.take 64).length < 4
  · rw [if_pos h1] at h; cases h
  rw [if_neg h1] at h
  by_cases h2 : [byteAt (file.take 64) 0, byteAt (file.take 64) 1,
      byteAt (file.take 64) 2, byteAt (file.take 64) 3] ≠ properMagic
  · rw [if_pos h2] at h; injection h with hm; exact hm.symm
  rw [if_neg h2] at h
  by_cases h3 : (file.take 64).length < 64
  · rw [if_pos h3] at h; cases h
  rw [if_neg h3] at h
  cases hd : decodeIdentNamed (file.take 64) with
  | none => rw [hd] at h; cases h
  | some idn => rw [hd] at h; cases h

/-- Inversion of a successful identification decode: each enumerated
field came from its byte and the raw fields are copied verbatim. -/
theorem decodeIdentNamed_eq_some (b : List Byte) (idn : ElfIdentNamed)
    (h : decodeIdentNamed b = some idn) :
    elfEiClassOfByte (byteAt b 4) = some idn.ei_class ∧
    elfEiDataOfByte (byteAt b 5) = some idn.ei_data ∧
    elfEiVersionOfByte (byteAt b 6) = some idn.ei_version ∧
    elfEiOsAbiOfByte (byteAt b 7) = some idn.ei_osabi ∧
    idn.ei_magic = [byteAt b 0, byteAt b 1, byteAt b 2, byteAt b 3] ∧
    idn.ei_osabiversion = byteAt b 8 := by
  unfold decodeIdentNamed at h
  rcases hc : elfEiClassOfByte (byteAt b 4) with _ | c <;> rw [hc] at h
  · cases h
  rcases hd : elfEiDataOfByte (byteAt b 5) with _ | d <;> rw [hd] at h
  · cases h
  rcases hv : elfEiVersionOfByte (byteAt b 6) with _ | v <;> rw [hv] at h
  · cases h
  rcases ho : elfEiOsAbiOfByte (byteAt b 7) with _ | o <;> rw [ho] at h
  · cases h
  cases h
  exact ⟨rfl, rfl, rfl, rfl, rfl, rfl⟩

/-- C1: for every input buffer with at least four bytes whose first four
bytes are not exactly 0x7F E L F, the run fails with the failure reported
as Not an ELF file, regardless of the content of all remaining bytes. -/
theorem claim1_magic_mismatch_panics (file : List Byte) (h4 : 4 ≤ file.length)
    (hm : [byteAt file 0, byteAt file 1, byteAt file 2, byteAt file 3] ≠ properMagic) :
    work file = .panicked "Not an ELF file" := by
  have h0 := byteAt_take file 0 (by omega)
  have h1 := byteAt_take file 1 (by omega)
  have h2 := byteAt_take file 2 (by omega)
  have h3 := byteAt_take file 3 (by omega)
  unfold work workB
  rw [if_neg (by simp only [List.length_take]; omega),
      if_pos (by rw [h0, h1, h2, h3]; exact hm)]

/-- Witness for C1 at the concrete 4-byte input of zeros. -/
theorem claim1_witness : work [(0 : Byte), 0, 0, 0] = .panicked "Not an ELF file" :=
  claim1_magic_mismatch_panics [0, 0, 0, 0] (by decide) (by decide)

/-- C2 (failing input): on the 4-byte buffer holding exactly the ELF
magic - shorter than the 64-byte header - work does not fail with any
TruncatedInput value; it passes the magic check and then reads past the
end of the buffer, which is undefined behavior.  No length check exists
in the source. -/
theorem claim2_truncated_is_undefined :
    work [(0x7f : Byte), 0x45, 0x4c, 0x46] = .undefinedBehavior := by decide

/-- C3: the header-type display is total over the 2-byte domain: 0-4 map
to their named variants, 0xff00-0xffff to Processor-specific, everything
else to Unknown file type. -/
theorem claim3_header_type_total (v : Nat) (hv : v < 65536) :
    (v = 0 → elfEhdrTypeStr v = "NONE (No file type)") ∧
    (v = 1 → elfEhdrTypeStr v = "REL (Relocatable file)") ∧
    (v = 2 → elfEhdrTypeStr v = "EXEC (Executable file)") ∧
    (v = 3 → elfEhdrTypeStr v = "DYN (Shared object file)") ∧
    (v = 4 → elfEhdrTypeStr v = "CORE (Core file)") ∧
    (0xff00 ≤ v → elfEhdrTypeStr v = "Processor-specific") ∧
    (5 ≤ v → v < 0xff00 → elfEhdrTypeStr v = "Unknown file type") := by
  refine ⟨fun h => by subst h; rfl, fun h => by subst h; rfl, fun h => by subst h; rfl,
    fun h => by subst h; rfl, fun h => by subst h; rfl, fun h => ?_, fun h5 hlt => ?_⟩
  · unfold elfEhdrTypeStr
    rw [if_neg (by omega), if_neg (by omega), if_neg (by omega), if_neg (by omega),
        if_neg (by omega), if_pos ⟨h, by omega⟩]
  · unfold elfEhdrTypeStr
    rw [if_neg (by omega), if_neg (by omega), if_neg (by omega), if_neg (by omega),
        if_neg (by omega), if_neg (by omega)]

/-- Witness for C3 at the concrete value 0xfeff named by the claim. -/
theorem claim3_witness :
    ((0xfeff : Nat) = 0 → elfEhdrTypeStr 0xfeff = "NONE (No file type)") ∧
    ((0xfeff : Nat) = 1 → elfEhdrTypeStr 0xfeff = "REL (Relocatable file)") ∧
    ((0xfeff : Nat) = 2 → elfEhdrTypeStr 0xfeff = "EXEC (Executable file)") ∧
    ((0xfeff : Nat) = 3 → elfEhdrTypeStr 0xfeff = "DYN (Shared object file)") ∧
    ((0xfeff : Nat) = 4 → elfEhdrTypeStr 0xfeff = "CORE (Core file)") ∧
    (0xff00 ≤ (0xfeff : Nat) → elfEhdrTypeStr 0xfeff = "Processor-specific") ∧
    (5 ≤ (0xfeff : Nat) → (0xfeff : Nat) < 0xff00 →
      elfEhdrTypeStr 0xfeff = "Unknown file type") :=
  claim3_header_type_total 0xfeff (by decide)

/-- C4: OS/ABI decoding is a closed enumeration over exactly the 14 named
byte values with no unknown-value fallback; byte 3 displays as GNU ELF and
byte 255 as Standalone (embedded) application. -/
theorem claim4_osabi_closed_enum :
    (∀ b : Byte, (elfEiOsAbiOfByte b).isSome ↔
      b.val ∈ [0, 1, 2, 3, 6, 7, 8, 9, 10, 11, 12, 64, 97, 255]) ∧
    elfEiOsAbiOfByte 3 = some .ELFOSABI_GNU ∧
    ElfEiOsAbi.str .ELFOSABI_GNU = "GNU ELF" ∧
    elfEiOsAbiOfByte 255 = some .ELFOSABI_STANDALONE ∧
    ElfEiOsAbi.str .ELFOSABI_STANDALONE = "Standalone (embedded) application" :=
  ⟨by decide, rfl, rfl, rfl, rfl⟩

/-- C5 (counterexample): on the 64-byte buffer of the round-trip
property, decoding succeeds, but the rendered report does not contain
the literal substring Class: ELF64 with a single space - the label is
padded to a fixed 37-character width. -/
theorem claim5_counterexample : work c5buf = .output c5out ∧
    strHasSub c5out "Class: ELF64" = false := ⟨rfl, rfl⟩

/-- C5 (amended): on that buffer decoding succeeds and the report
contains the Class, Data and Type lines with their values ELF64,
2s-complement little endian, and EXEC (Executable file), label and value
separated by the fixed-width padding. -/
theorem claim5_amended : work c5buf = .output c5out ∧
    strHasSub c5out "  Class:                             ELF64\n" = true ∧
    strHasSub c5out ("  Data:                              2" ++ apos ++
      "s complement, little endian\n") = true ∧
    strHasSub c5out "  Type:                              EXEC (Executable file)\n" = true :=
  ⟨rfl, rfl, rfl, rfl⟩

/-- C6 (counterexample): on a valid buffer whose program header table
offset field holds 64, the report shows the offset as decimal 64, and the
hexadecimal form 0x40 appears nowhere in the report - the offsets are not
rendered in hexadecimal. -/
theorem claim6_counterexample : work c6buf = .output c6out ∧
    strHasSub c6out "  Start of program headers:          64 (bytes into file)\n" = true ∧
    strHasSub c6out "0x40" = false := ⟨rfl, rfl, rfl⟩

/-- C6 (amended): in every rendered report the version, entry point and
flags fields are displayed in hexadecimal with a 0x prefix, while the
program and section header table offsets and all counts and sizes are
displayed in decimal. -/
theorem claim6_amended (h : Elf64_Ehdr) (idn : ElfIdentNamed) :
    strHasSub (renderEhdr h idn) ("  Version:                           0x" ++
      String.mk (Nat.toDigits 16 h.e_version) ++ "\n") = true ∧
    strHasSub (renderEhdr h idn) ("  Entry point address:               0x" ++
      String.mk (Nat.toDigits 16 h.e_entry) ++ "\n") = true ∧
    strHasSub (renderEhdr h idn) ("  Flags:                             0x" ++
      String.mk (Nat.toDigits 16 h.e_flags) ++ "\n") = true ∧
    strHasSub (renderEhdr h idn) ("  Start of program headers:          " ++
      Nat.repr h.e_phoff ++ " (bytes into file)\n") = true ∧
    strHasSub (renderEhdr h idn) ("  Start of section headers:          " ++
      Nat.repr h.e_shoff ++ " (bytes into file)\n") = true ∧
    strHasSub (renderEhdr h idn) ("  Size of this header:               " ++
      Nat.repr h.e_ehsize ++ " (bytes)\n") = true ∧
    strHasSub (renderEhdr h idn) ("  Size of program headers:           " ++
      Nat.repr h.e_phentsize ++ " (bytes)\n") = true ∧
    strHasSub (renderEhdr h idn) ("  Number of program headers:         " ++
      Nat.repr h.e_phnum ++ "\n") = true ∧
    strHasSub (renderEhdr h idn) ("  Size of section headers:           " ++
      Nat.repr h.e_shentsize ++ " (bytes)\n") = true ∧
    strHasSub (renderEhdr h idn) ("  Number of section headers:         " ++
      Nat.repr h.e_shnum ++ "\n") = true ∧
    strHasSub (renderEhdr h idn) ("  Section header string table index: " ++
      Nat.repr h.e_shstrndx) = true := by
  have ev : lnVersion h = "  Version:                           0x" ++
      String.mk (Nat.toDigits 16 h.e_version) ++ "\n" := by
    simp only [lnVersion, hexFmt, show ("  Version:                           0x" : String) =
      "  Version:                           " ++ "0x" from rfl, String.append_assoc]
  have ee : lnEntry h = "  Entry point address:               0x" ++
      String.mk (Nat.toDigits 16 h.e_entry) ++ "\n" := by
    simp only [lnEntry, hexFmt, show ("  Entry point address:               0x" : String) =
      "  Entry point address:               " ++ "0x" from rfl, String.append_assoc]
  have ef : lnFlags h = "  Flags:                             0x" ++
      String.mk (Nat.toDigits 16 h.e_flags) ++ "\n" := by
    simp only [lnFlags, hexFmt, show ("  Flags:                             0x" : String) =
      "  Flags:                             " ++ "0x" from rfl, String.append_assoc]
  refine ⟨?_, ?_, ?_, ?_, ?_, ?_, ?_, ?_, ?_, ?_, ?_⟩
  · rw [← ev]
    unfold renderEhdr renderRest
    apply strHasSub_left
    iterate 10 apply strHasSub_right
    apply strHasSub_left
    exact strHasSub_self _
  · rw [← ee]
    unfold renderEhdr renderRest
    apply strHasSub_left
    iterate 9 apply strHasSub_right
    apply strHasSub_left
    exact strHasSub_self _
  · rw [← ef]
    unfold renderEhdr renderRest
    apply strHasSub_left
    iterate 6 apply strHasSub_right
    apply strHasSub_left
    exact strHasSub_self _
  · rw [show ("  Start of program headers:          " ++
      Nat.repr h.e_phoff ++ " (bytes into file)\n") = lnPhoff h from rfl]
    unfold renderEhdr renderRest
    apply strHasSub_left
    iterate 8 apply strHasSub_right
    apply strHasSub_left
    exact strHasSub_self _
  · rw [show ("  Start of section headers:          " ++
      Nat.repr h.e_shoff ++ " (bytes into file)\n") = lnShoff h from rfl]
    unfold renderEhdr renderRest
    apply strHasSub_left
    iterate 7 apply strHasSub_right
    apply strHasSub_left
    exact strHasSub_self _
  · rw [show ("  Size of this header:               " ++
      Nat.repr h.e_ehsize ++ " (bytes)\n") = lnEhsize h from rfl]
    unfold renderEhdr renderRest
    apply strHasSub_left
    iterate 5 apply strHasSub_right
    apply strHasSub_left
    exact strHasSub_self _
  · rw [show ("  Size of program headers:           " ++
      Nat.repr h.e_phentsize ++ " (bytes)\n") = lnPhentsize h from rfl]
    unfold renderEhdr renderRest
    apply strHasSub_left
    iterate 4 apply strHasSub_right
    apply strHasSub_left
    exact strHasSub_self _
  · rw [show ("  Number of program headers:         " ++
      Nat.repr h.e_phnum ++ "\n") = lnPhnum h from rfl]
    unfold renderEhdr renderRest
    apply strHasSub_left
    iterate 3 apply strHasSub_right
    apply strHasSub_left
    exact strHasSub_self _
  · rw [show ("  Size of section headers:           " ++
      Nat.repr h.e_shentsize ++ " (bytes)\n") = lnShentsize h from rfl]
    unfold renderEhdr renderRest
    apply strHasSub_left
    iterate 2 apply strHasSub_right
    apply strHasSub_left
    exact strHasSub_self _
  · rw [show ("  Number of section headers:         " ++
      Nat.repr h.e_shnum ++ "\n") = lnShnum h from rfl]
    unfold renderEhdr renderRest
    apply strHasSub_left
    iterate 1 apply strHasSub_right
    apply strHasSub_left
    exact strHasSub_self _
  · rw [show ("  Section header string table index: " ++
      Nat.repr h.e_shstrndx) = lnShstrndx h from rfl]
    unfold renderEhdr renderRest
    apply strHasSub_left
    apply strHasSub_left
    exact strHasSub_self _

/-- C7: whenever work prints a report, the Start of program headers and
Start of section headers lines show exactly the decimal values of the
little-endian 8-byte integers stored at byte offsets 32-39 and 40-47 of
the input. -/
theorem claim7_offsets_from_bytes (file : List Byte) (s : String)
    (h : work file = .output s) :
    strHasSub s ("  Start of program headers:          " ++
      Nat.repr (readLE file 32 8) ++ " (bytes into file)\n") = true ∧
    strHasSub s ("  Start of section headers:          " ++
      Nat.repr (readLE file 40 8) ++ " (bytes into file)\n") = true := by
  obtain ⟨hlen, idn, hidn, hs⟩ := work_output file s h
  subst hs
  have hph : lnPhoff (decodeRaw (file.take 64)) =
      "  Start of program headers:          " ++
        Nat.repr (readLE file 32 8) ++ " (bytes into file)\n" := by
    simp only [lnPhoff, decodeRaw]
    rw [readLE_take file 8 32 (by omega)]
  have hsh : lnShoff (decodeRaw (file.take 64)) =
      "  Start of section headers:          " ++
        Nat.repr (readLE file 40 8) ++ " (bytes into file)\n" := by
    simp only [lnShoff, decodeRaw]
    rw [readLE_take file 8 40 (by omega)]
  constructor
  · rw [← hph]
    apply strHasSub_right
    unfold renderEhdr renderRest
    apply strHasSub_left
    iterate 8 apply strHasSub_right
    apply strHasSub_left
    exact strHasSub_self _
  · rw [← hsh]
    apply strHasSub_right
    unfold renderEhdr renderRest
    apply strHasSub_left
    iterate 7 apply strHasSub_right
    apply strHasSub_left
    exact strHasSub_self _

/-- Witness for C7 on the concrete executable header c7file, whose
program header table sits at decimal offset 64 and section header table
at decimal offset 344. -/
theorem claim7_witness :
    strHasSub c7out ("  Start of program headers:          " ++
      Nat.repr (readLE c7file 32 8) ++ " (bytes into file)\n") = true ∧
    strHasSub c7out ("  Start of section headers:          " ++
      Nat.repr (readLE c7file 40 8) ++ " (bytes into file)\n") = true :=
  claim7_offsets_from_bytes c7file c7out (by rfl)

/-- C8 (counterexample): on a 64-byte buffer of zeros the magic check
fails and work terminates by a panic carrying Not an ELF file - an
uncontrolled termination raised inside the parsing function, not a
failure value returned to the caller; no failure-as-value path exists. -/
theorem claim8_counterexample : work c8buf = .panicked "Not an ELF file" := by decide

/-- C8 (amended): a run of work that prints no report either panics with
the message Not an ELF file or is undefined behavior; failures are never
returned as values, and main adds no conversion. -/
theorem claim8_amended (file : List Byte) (h : ∀ s, work file ≠ .output s) :
    work file = .panicked "Not an ELF file" ∨ work file = .undefinedBehavior := by
  cases hr : work file with
  | output s => exact absurd hr (h s)
  | panicked m => exact Or.inl (congrArg WorkResult.panicked (work_panicked file m hr))
  | undefinedBehavior => exact Or.inr rfl

/-- Witness for C8 at the concrete all-zero 64-byte input. -/
theorem claim8_witness : work c8buf = .panicked "Not an ELF file" ∨
    work c8buf = .undefinedBehavior :=
  claim8_amended c8buf (fun s hs => by
    rw [show work c8buf = WorkResult.panicked "Not an ELF file" from rfl] at hs
    cases hs)

/-- C9 (counterexample): two valid 64-byte header buffers differing only
in padding byte 9 decode and print successfully, but their rendered
reports differ - the Magic line prints all 16 identification bytes,
padding included. -/
theorem claim9_counterexample : work c9bufA = .output c9outA ∧
    work c9bufB = .output c9outB ∧ c9outA ≠ c9outB := ⟨rfl, rfl, by decide⟩

/-- C9 (amended): the padding bytes at offsets 9-15 are ignored by
decoding and not validated - two buffers agreeing on every byte below 64
outside 9-15 decode to identification views equal in every field except
the raw padding, to identical scalar header fields, and to identical
report text after the Magic line; only the Magic line (the raw ident
dump) can differ. -/
theorem claim9_amended (b1 b2 : List Byte) (idn1 idn2 : ElfIdentNamed)
    (hag : ∀ i, i < 64 → i < 9 ∨ 15 < i → byteAt b1 i = byteAt b2 i)
    (h1 : decodeIdentNamed b1 = some idn1) (h2 : decodeIdentNamed b2 = some idn2) :
    (idn1.ei_magic = idn2.ei_magic ∧ idn1.ei_class = idn2.ei_class ∧
     idn1.ei_data = idn2.ei_data ∧ idn1.ei_version = idn2.ei_version ∧
     idn1.ei_osabi = idn2.ei_osabi ∧ idn1.ei_osabiversion = idn2.ei_osabiversion) ∧
    ((decodeRaw b1).e_type = (decodeRaw b2).e_type ∧
     (decodeRaw b1).e_machine = (decodeRaw b2).e_machine ∧
     (decodeRaw b1).e_version = (decodeRaw b2).e_version ∧
     (decodeRaw b1).e_entry = (decodeRaw b2).e_entry ∧
     (decodeRaw b1).e_phoff = (decodeRaw b2).e_phoff ∧
     (decodeRaw b1).e_shoff = (decodeRaw b2).e_shoff ∧
     (decodeRaw b1).e_flags = (decodeRaw b2).e_flags ∧
     (decodeRaw b1).e_ehsize = (decodeRaw b2).e_ehsize ∧
     (decodeRaw b1).e_phentsize = (decodeRaw b2).e_phentsize ∧
     (decodeRaw b1).e_phnum = (decodeRaw b2).e_phnum ∧
     (decodeRaw b1).e_shentsize = (decodeRaw b2).e_shentsize ∧
     (decodeRaw b1).e_shnum = (decodeRaw b2).e_shnum ∧
     (decodeRaw b1).e_shstrndx = (decodeRaw b2).e_shstrndx) ∧
    renderRest (decodeRaw b1) idn1 = renderRest (decodeRaw b2) idn2 := by
  obtain ⟨c1, d1, v1, o1, m1, a1⟩ := decodeIdentNamed_eq_some b1 idn1 h1
  obtain ⟨c2, d2, v2, o2, m2, a2⟩ := decodeIdentNamed_eq_some b2 idn2 h2
  have e0 : byteAt b1 0 = byteAt b2 0 := hag 0 (by omega) (by omega)
  have e1 : byteAt b1 1 = byteAt b2 1 := hag 1 (by omega) (by omega)
  have e2 : byteAt b1 2 = byteAt b2 2 := hag 2 (by omega) (by omega)
  have e3 : byteAt b1 3 = byteAt b2 3 := hag 3 (by omega) (by omega)
  have e4 : byteAt b1 4 = byteAt b2 4 := hag 4 (by omega) (by omega)
  have e5 : byteAt b1 5 = byteAt b2 5 := hag 5 (by omega) (by omega)
  have e6 : byteAt b1 6 = byteAt b2 6 := hag 6 (by omega) (by omega)
  have e7 : byteAt b1 7 = byteAt b2 7 := hag 7 (by omega) (by omega)
  have e8 : byteAt b1 8 = byteAt b2 8 := hag 8 (by omega) (by omega)
  have hmag : idn1.ei_magic = idn2.ei_magic := by rw [m1, m2, e0, e1, e2, e3]
  have hcls : idn1.ei_class = idn2.ei_class := by
    rw [e4, c2] at c1; injection c1 with hx; exact hx.symm
  have hdat : idn1.ei_data = idn2.ei_data := by
    rw [e5, d2] at d1; injection d1 with hx; exact hx.symm
  have hver : idn1.ei_version = idn2.ei_version := by
    rw [e6, v2] at v1; injection v1 with hx; exact hx.symm
  have hosa : idn1.ei_osabi = idn2.ei_osabi := by
    rw [e7, o2] at o1; injection o1 with hx; exact hx.symm
  have habi : idn1.ei_osabiversion = idn2.ei_osabiversion := by rw [a1, a2, e8]
  have rt : (decodeRaw b1).e_type = (decodeRaw b2).e_type := by
    simp only [decodeRaw]
    exact readLE_congr b1 b2 2 16 (fun i ha hb => hag i (by omega) (by omega))
  have rm : (decodeRaw b1).e_machine = (decodeRaw b2).e_machine := by
    simp only [decodeRaw]
    exact readLE_congr b1 b2 2 18 (fun i ha hb => hag i (by omega) (by omega))
  have rv : (decodeRaw b1).e_version = (decodeRaw b2).e_version := by
    simp only [decodeRaw]
    exact readLE_congr b1 b2 4 20 (fun i ha hb => hag i (by omega) (by omega))
  have re : (decodeRaw b1).e_entry = (decodeRaw b2).e_entry := by
    simp only [decodeRaw]
    exact readLE_congr b1 b2 8 24 (fun i ha hb => hag i (by omega) (by omega))
  have rph : (decodeRaw b1).e_phoff = (decodeRaw b2).e_phoff := by
    simp only [decodeRaw]
    exact readLE_congr b1 b2 8 32 (fun i ha hb => hag i (by omega) (by omega))
  have rsh : (decodeRaw b1).e_shoff = (decodeRaw b2).e_shoff := by
    simp only [decodeRaw]
    exact readLE_congr b1 b2 8 40 (fun i ha hb => hag i (by omega) (by omega))
  have rf : (decodeRaw b1).e_flags = (decodeRaw b2).e_flags := by
    simp only [decodeRaw]
    exact readLE_congr b1 b2 4 48 (fun i ha hb => hag i (by omega) (by omega))
  have reh : (decodeRaw b1).e_ehsize = (decodeRaw b2).e_ehsize := by
    simp only [decodeRaw]
    exact readLE_congr b1 b2 2 52 (fun i ha hb => hag i (by omega) (by omega))
  have rphe : (decodeRaw b1).e_phentsize = (decodeRaw b2).e_phentsize := by
    simp only [decodeRaw]
    exact readLE_congr b1 b2 2 54 (fun i ha hb => hag i (by omega) (by omega))
  have rphn : (decodeRaw b1).e_phnum = (decodeRaw b2).e_phnum := by
    simp only [decodeRaw]
    exact readLE_congr b1 b2 2 56 (fun i ha hb => hag i (by omega) (by omega))
  have rshe : (decodeRaw b1).e_shentsize = (decodeRaw b2).e_shentsize := by
    simp only [decodeRaw]
    exact readLE_congr b1 b2 2 58 (fun i ha hb => hag i (by omega) (by omega))
  have rshn : (decodeRaw b1).e_shnum = (decodeRaw b2).e_shnum := by
    simp only [decodeRaw]
    exact readLE_congr b1 b2 2 60 (fun i ha hb => hag i (by omega) (by omega))
  have rshs : (decodeRaw b1).e_shstrndx = (decodeRaw b2).e_shstrndx := by
    simp only [decodeRaw]
    exact readLE_congr b1 b2 2 62 (fun i ha hb => hag i (by omega) (by omega))
  have hr : renderRest (decodeRaw b1) idn1 = renderRest (decodeRaw b2) idn2 := by
    unfold renderRest lnClass lnData lnIVersion lnOsAbi lnAbiVer lnType lnMachine
      lnVersion lnEntry lnPhoff lnShoff lnFlags lnEhsize lnPhentsize lnPhnum
      lnShentsize lnShnum lnShstrndx
    rw [hcls, hdat, hver, hosa, habi, rt, rm, rv, re, rph, rsh, rf, reh, rphe,
      rphn, rshe, rshn, rshs]
  exact ⟨⟨hmag, hcls, hdat, hver, hosa, habi⟩,
    ⟨rt, rm, rv, re, rph, rsh, rf, reh, rphe, rphn, rshe, rshn, rshs⟩, hr⟩

/-- Witness for C9 at the concrete buffers c9bufA and c9bufB, which
differ only in padding byte 9. -/
theorem claim9_witness :
    (c9idnA.ei_magic = c9idnB.ei_magic ∧ c9idnA.ei_class = c9idnB.ei_class ∧
     c9idnA.ei_data = c9idnB.ei_data ∧ c9idnA.ei_version = c9idnB.ei_version ∧
     c9idnA.ei_osabi = c9idnB.ei_osabi ∧ c9idnA.ei_osabiversion = c9idnB.ei_osabiversion) ∧
    ((decodeRaw c9bufA).e_type = (decodeRaw c9bufB).e_type ∧
     (decodeRaw c9bufA).e_machine = (decodeRaw c9bufB).e_machine ∧
     (decodeRaw c9bufA).e_version = (decodeRaw c9bufB).e_version ∧
     (decodeRaw c9bufA).e_entry = (decodeRaw c9bufB).e_entry ∧
     (decodeRaw c9bufA).e_phoff = (decodeRaw c9bufB).e_phoff ∧
     (decodeRaw c9bufA).e_shoff = (decodeRaw c9bufB).e_shoff ∧
     (decodeRaw c9bufA).e_flags = (decodeRaw c9bufB).e_flags ∧
     (decodeRaw c9bufA).e_ehsize = (decodeRaw c9bufB).e_ehsize ∧
     (decodeRaw c9bufA).e_phentsize = (decodeRaw c9bufB).e_phentsize ∧
     (decodeRaw c9bufA).e_phnum = (decodeRaw c9bufB).e_phnum ∧
     (decodeRaw c9bufA).e_shentsize = (decodeRaw c9bufB).e_shentsize ∧
     (decodeRaw c9bufA).e_shnum = (decodeRaw c9bufB).e_shnum ∧
     (decodeRaw c9bufA).e_shstrndx = (decodeRaw c9bufB).e_shstrndx) ∧
    renderRest (decodeRaw c9bufA) c9idnA = renderRest (decodeRaw c9bufB) c9idnB :=
  claim9_amended c9bufA c9bufB c9idnA c9idnB (by decide) (by rfl) (by rfl)

/-- C10: the entire outcome of a run is determined by the first 64 bytes
of the input file - the read is capped at sizeof Elf64_Ehdr = 64 bytes,
so two files agreeing on their first 64 bytes produce identical results,
whatever lies beyond offset 63. -/
theorem claim10_first64_determines_output (f1 f2 : List Byte)
    (h : f1.take 64 = f2.take 64) : work f1 = work f2 := by
  unfold work; rw [h]

/-- Witness for C10 at two concrete 65-byte files differing only in the
byte beyond offset 63. -/
theorem claim10_witness : work c10f1 = work c10f2 :=
  claim10_first64_determines_output c10f1 c10f2 (by decide)

end Relf
